import Mathlib

/-!
Verification of the orchestration behavior of the Pico weather station
(`main.py`): the sensor refresh, the HTML page builder, the wifi join
retry policy, and the display/web-server service loop.  Pure functions of
the source are translated directly; the stateful loop is modelled as a
state-transition function over the module-level globals, driven by an
explicit event describing what the external world (sensor, wlan, sockets,
user interrupt) does in each iteration.
-/

set_option maxRecDepth 16000

namespace WeatherStation

/-- The three module-level reading variables `temperature`, `pressure`,
`humidity` (main.py lines 62-64), grouped as one record. -/
structure ReadingSet where
  temperature : String
  pressure : String
  humidity : String
deriving DecidableEq, Repr

/-- Initial values of the three globals (main.py lines 62-64): empty strings. -/
def initialReadings : ReadingSet := ⟨"", "", ""⟩

/-- Outcome of one sensor transaction (the `bme280.BME280(i2c=i2c)` probe and
the three `bme.values` accesses): either three formatted strings, or a
failure (any exception raised inside the `try` block). -/
inductive SensorResult where
  | ok (t p h : String)
  | fail
deriving DecidableEq, Repr

/-- `refresh_weatherData` (main.py lines 84-100): on success all three
globals are overwritten with the sensor strings; on any exception the bare
`except` overwrites all three with the sentinel. The function is total:
it never propagates an exception. -/
def refresh_weatherData (sr : SensorResult) : ReadingSet :=
  match sr with
  | .ok t p h => ⟨t, p, h⟩
  | .fail => ⟨"n/a", "n/a", "n/a"⟩

/-- First literal piece of the `web_page` template (main.py lines 106-143),
up to the opening of the temperature sensor span. -/
def htmlPre : String := "\n<html>\n<head>\n    <meta name=\"viewport\" content=\"width=device-width, initial-scale=1\">\n    <link rel=\"icon\" href=\"data:,\">\n    <style>\n        body \x7b text-align: center; font-family: \"Helvetica\", Arial;\x7d\n        table \x7b border-collapse: collapse; width:55%; margin-left:auto; margin-right:auto; \x7d\n        th \x7b padding: 12px; background-color: #87034F; color: white; \x7d\n        tr \x7b border: 2px solid #000556; padding: 12px; \x7d\n        tr:hover \x7b background-color: #bcbcbc; \x7d\n        td \x7b border: none; padding: 14px; \x7d\n        .sensor \x7b color:DarkBlue; font-weight: bold; background-color: #ffffff; padding: 1px;  \n        \n        img\x7bdisplay: block; margin-left: auto; margin-right: auto;\x7d\n    </style>\n    <meta http-equiv=\"refresh\" content=\"60\">\n    <meta name=\"viewport\" content=\"width=device-width, initial-scale=1\">\n</head>\n<body>\n    <h1>\n        Welcome to Evan\x27s Weather Station\n    </h1>\n    Want to know the temperature, check it here! <br>\n    <br>\n    \n    <img src=\"https://static.wikia.nocookie.net/legobatman/images/a/af/Batman1_Robin.png\" height=\"200\" />\n\n    <table>\n    <tr>\n        <th>Parameters</th><th>Value</th>\n    </tr>\n    <tr>\n        <td>\n            Temperature\n        </td>\n        <td>\n            <span class=\"sensor\">"

/-- Second literal piece of the template (main.py lines 143-148): between
the temperature value and the pressure value. -/
def htmlMid1 : String := "</span>\n        </td>\n    </tr>\n    <tr>\n        <td>\n            Pressure</td><td><span class=\"sensor\">"

/-- Third literal piece of the template (main.py lines 148-153): between
the pressure value and the humidity value. -/
def htmlMid2 : String := "</span>\n        </td>\n    </tr>\n    <tr>\n        <td>Humidity</td>\n        <td><span class=\"sensor\">"

/-- Final literal piece of the template (main.py lines 153-157), after the
humidity value. -/
def htmlPost : String := "</span></td>\n    </tr> \n    </table>\n</body>\n</html>"

/-- `web_page` (main.py lines 105-158): the four template literals with the
three current readings concatenated in between, exactly as the source
builds `html`. -/
def web_page (r : ReadingSet) : String :=
  htmlPre ++ r.temperature ++ htmlMid1 ++ r.pressure ++ htmlMid2 ++ r.humidity ++ htmlPost

/-- The opening tag of a sensor value cell in the template. -/
def sensorSpanOpen : String := "<span class=\"sensor\">"

/-- A complete sensor value cell as it appears in the rendered page:
the opening span, the value, the closing span. -/
def sensorCell (v : String) : String := sensorSpanOpen ++ v ++ "</span>"

/-- The 60-second meta-refresh tag of the template. -/
def metaRefresh60 : String := "<meta http-equiv=\"refresh\" content=\"60\">"

/-- Part of `htmlPre` before the meta-refresh tag. -/
def htmlPreA : String := "\n<html>\n<head>\n    <meta name=\"viewport\" content=\"width=device-width, initial-scale=1\">\n    <link rel=\"icon\" href=\"data:,\">\n    <style>\n        body \x7b text-align: center; font-family: \"Helvetica\", Arial;\x7d\n        table \x7b border-collapse: collapse; width:55%; margin-left:auto; margin-right:auto; \x7d\n        th \x7b padding: 12px; background-color: #87034F; color: white; \x7d\n        tr \x7b border: 2px solid #000556; padding: 12px; \x7d\n        tr:hover \x7b background-color: #bcbcbc; \x7d\n        td \x7b border: none; padding: 14px; \x7d\n        .sensor \x7b color:DarkBlue; font-weight: bold; background-color: #ffffff; padding: 1px;  \n        \n        img\x7bdisplay: block; margin-left: auto; margin-right: auto;\x7d\n    </style>\n    "

/-- Part of `htmlPre` between the meta-refresh tag and the Temperature label. -/
def htmlPreB : String := "\n    <meta name=\"viewport\" content=\"width=device-width, initial-scale=1\">\n</head>\n<body>\n    <h1>\n        Welcome to Evan\x27s Weather Station\n    </h1>\n    Want to know the temperature, check it here! <br>\n    <br>\n    \n    <img src=\"https://static.wikia.nocookie.net/legobatman/images/a/af/Batman1_Robin.png\" height=\"200\" />\n\n    <table>\n    <tr>\n        <th>Parameters</th><th>Value</th>\n    </tr>\n    <tr>\n        <td>\n            "

/-- Part of `htmlPre` between the Temperature label and the temperature cell. -/
def htmlPreC : String := "\n        </td>\n        <td>\n            "

/-- Part of `htmlMid1` between the temperature cell and the Pressure label. -/
def htmlMid1b : String := "\n        </td>\n    </tr>\n    <tr>\n        <td>\n            "

/-- Part of `htmlMid1` between the Pressure label and the pressure cell. -/
def htmlMid1c : String := "</td><td>"

/-- Part of `htmlMid2` between the pressure cell and the Humidity label. -/
def htmlMid2b : String := "\n        </td>\n    </tr>\n    <tr>\n        <td>"

/-- Part of `htmlMid2` between the Humidity label and the humidity cell. -/
def htmlMid2c : String := "</td>\n        <td>"

/-- Part of `htmlPost` after the humidity cell. -/
def htmlPostB : String := "</td>\n    </tr> \n    </table>\n</body>\n</html>"

theorem htmlPre_split :
    htmlPre = htmlPreA ++ (metaRefresh60 ++ (htmlPreB ++ ("Temperature" ++ (htmlPreC ++ sensorSpanOpen)))) := rfl

theorem htmlMid1_split :
    htmlMid1 = "</span>" ++ (htmlMid1b ++ ("Pressure" ++ (htmlMid1c ++ sensorSpanOpen))) := rfl

theorem htmlMid2_split :
    htmlMid2 = "</span>" ++ (htmlMid2b ++ ("Humidity" ++ (htmlMid2c ++ sensorSpanOpen))) := rfl

theorem htmlPost_split : htmlPost = "</span>" ++ htmlPostB := rfl

/-- Structural decomposition of the rendered page: the three labels and the
three sensor cells appear in order, with the fixed template text around them. -/
theorem web_page_parts (r : ReadingSet) :
    web_page r =
      htmlPreA ++ metaRefresh60 ++ htmlPreB ++ "Temperature" ++ htmlPreC ++
        sensorCell r.temperature ++ htmlMid1b ++ "Pressure" ++ htmlMid1c ++
        sensorCell r.pressure ++ htmlMid2b ++ "Humidity" ++ htmlMid2c ++
        sensorCell r.humidity ++ htmlPostB := by
  rw [web_page, htmlPre_split, htmlMid1_split, htmlMid2_split, htmlPost_split]
  simp [sensorCell, String.append_assoc]

/-- C1: on any sensor failure, `refresh_weatherData` sets all three fields of
the Reading Set to the sentinel "n/a" (and, being total, never raises), and
the page built by `web_page` from that Reading Set carries the sentinel
verbatim in each of the three sensor table cells. -/
theorem claim_C1 :
    refresh_weatherData SensorResult.fail = ⟨"n/a", "n/a", "n/a"⟩ ∧
    ∃ a b c d, web_page (refresh_weatherData SensorResult.fail) =
      a ++ (sensorCell "n/a" ++ (b ++ (sensorCell "n/a" ++ (c ++ (sensorCell "n/a" ++ d))))) := by
  refine ⟨rfl, htmlPreA ++ metaRefresh60 ++ htmlPreB ++ "Temperature" ++ htmlPreC,
    htmlMid1b ++ "Pressure" ++ htmlMid1c,
    htmlMid2b ++ "Humidity" ++ htmlMid2c, htmlPostB, ?_⟩
  have h := web_page_parts (refresh_weatherData SensorResult.fail)
  rw [h]
  simp [refresh_weatherData, String.append_assoc]

/-- The configured network candidates `wifiNetworks` (main.py lines 67-70),
in iteration order: an ordered list of (ssid, password) pairs. -/
def wifiNetworks : List (String × String) :=
  [("SM-S918W0938", "xxxxx"), ("TLA Student", "yyyy")]

/-- Observable behavior of the wlan during one connection try: the value
`wlan.status()` returns at each poll of the wait loop, and the value
`wlan.isconnected()` returns when the wait loop has finished. -/
structure TryBehavior where
  status : Nat → Int
  isconnected : Bool

/-- The wait loop of `connect_to_wifi` (main.py lines 176-181):
`wait` starts at 0 and the loop runs while
`wlan.status() >= 0 and wlan.status() < 3 and wait < 10`, incrementing
`wait` each iteration.  `fuel` is a structural bound; with `fuel = 10` and
`wait = 0` the `wait < 10` conjunct is always the binding one, so the fuel
never cuts the loop short. Returns the final value of `wait`, i.e. the
number of polls performed. -/
def waitLoopAux (status : Nat → Int) : Nat → Nat → Nat
  | wait, 0 => wait
  | wait, fuel + 1 =>
    if 0 ≤ status wait ∧ status wait < 3 ∧ wait < 10 then waitLoopAux status (wait + 1) fuel
    else wait

/-- Number of polls one try performs: the wait loop started at `wait = 0`. -/
def waitLoop (status : Nat → Int) : Nat := waitLoopAux status 0 10

/-- One connection try as recorded in a trace: which candidate, which of the
two tries for it, and how many status polls the wait loop performed. -/
structure Attempt where
  candidate : Nat
  tryIdx : Nat
  polls : Nat
deriving DecidableEq, Repr

/-- One iteration of the inner `for i in range(2)` body (main.py lines
174-187): call `wlan.connect`, run the wait loop, then report
`wlan.isconnected()` together with the attempt record.  The environment
`env` gives the wlan behavior for candidate `ci`, try `ti`. -/
def runTry (env : Nat → Nat → TryBehavior) (ci ti : Nat) : Bool × Attempt :=
  ((env ci ti).isconnected, ⟨ci, ti, waitLoop (env ci ti).status⟩)

/-- The inner `for i in range(2)` loop for one candidate: try 0, and if it
did not connect, try 1.  A successful try returns immediately. -/
def runCandidate (env : Nat → Nat → TryBehavior) (ci : Nat) : Bool × List Attempt :=
  let r0 := runTry env ci 0
  if r0.1 then (true, [r0.2])
  else
    let r1 := runTry env ci 1
    (r1.1, [r0.2, r1.2])

/-- The outer `for ssid, password in wifiNetworks.items()` loop starting at
candidate index `ci`: a success returns `True` at once, exhausting all
candidates returns `False` (main.py lines 169-189). The returned list is
the trace of tries made. -/
def connectFrom (env : Nat → Nat → TryBehavior) (ci : Nat) :
    List (String × String) → Bool × List Attempt
  | [] => (false, [])
  | _ :: rest =>
    let rc := runCandidate env ci
    if rc.1 then (true, rc.2)
    else
      let rr := connectFrom env (ci + 1) rest
      (rr.1, rc.2 ++ rr.2)

/-- `connect_to_wifi` (main.py lines 163-189), over an arbitrary candidate
list and wlan behavior. -/
def connect_to_wifi (env : Nat → Nat → TryBehavior)
    (cands : List (String × String)) : Bool × List Attempt :=
  connectFrom env 0 cands

/-- The two attempts made for a candidate whose tries both fail. -/
def bothAttempts (env : Nat → Nat → TryBehavior) (ci : Nat) : List Attempt :=
  [(runTry env ci 0).2, (runTry env ci 1).2]

/-- Trace of `n` consecutive candidates starting at `ci`, each failing both
of its tries. -/
def allFailTrace (env : Nat → Nat → TryBehavior) (ci : Nat) : Nat → List Attempt
  | 0 => []
  | n + 1 => bothAttempts env ci ++ allFailTrace env (ci + 1) n

/-- Trace of the successful candidate `ci`: one attempt if try 0 connects,
two if only try 1 does. -/
def successTrace (env : Nat → Nat → TryBehavior) (ci : Nat) : List Attempt :=
  if (env ci 0).isconnected then [(runTry env ci 0).2]
  else [(runTry env ci 0).2, (runTry env ci 1).2]

/-- Number of tries a trace records for candidate `c`. -/
def triesFor (tr : List Attempt) (c : Nat) : Nat :=
  tr.countP (fun a => a.candidate == c)

theorem waitLoopAux_le (status : Nat → Int) :
    ∀ fuel wait, waitLoopAux status wait fuel ≤ max wait 10 := by
  intro fuel
  induction fuel with
  | zero => intro wait; simp [waitLoopAux]
  | succ n ih =>
    intro wait
    rw [waitLoopAux]
    split
    · have := ih (wait + 1)
      omega
    · omega

theorem waitLoop_le10 (status : Nat → Int) : waitLoop status ≤ 10 := by
  have := waitLoopAux_le status 10 0
  simpa [waitLoop] using this

theorem runCandidate_fail (env : Nat → Nat → TryBehavior) (ci : Nat)
    (h0 : (env ci 0).isconnected = false) (h1 : (env ci 1).isconnected = false) :
    runCandidate env ci = (false, bothAttempts env ci) := by
  simp [runCandidate, runTry, bothAttempts, h0, h1]

theorem runCandidate_succ (env : Nat → Nat → TryBehavior) (ci : Nat)
    (h : (env ci 0).isconnected = true ∨ (env ci 1).isconnected = true) :
    runCandidate env ci = (true, successTrace env ci) := by
  rcases h with h | h
  · simp [runCandidate, runTry, successTrace, h]
  · by_cases h0 : (env ci 0).isconnected = true <;>
      simp [runCandidate, runTry, successTrace, h, h0]

theorem connectFrom_all_fail (env : Nat → Nat → TryBehavior) :
    ∀ (l : List (String × String)) (ci : Nat),
    (∀ j, j < l.length →
      (env (ci + j) 0).isconnected = false ∧ (env (ci + j) 1).isconnected = false) →
    connectFrom env ci l = (false, allFailTrace env ci l.length) := by
  intro l
  induction l with
  | nil => intro ci _; rfl
  | cons c rest ih =>
    intro ci h
    have h0 := h 0 (by simp)
    rw [Nat.add_zero] at h0
    have hrc := runCandidate_fail env ci h0.1 h0.2
    have hrest := ih (ci + 1) (fun j hj => by
      have := h (j + 1) (by simpa using Nat.succ_lt_succ hj)
      simpa [Nat.add_assoc, Nat.add_comm 1 j] using this)
    simp [connectFrom, hrc, hrest, allFailTrace]

theorem connectFrom_succ_at (env : Nat → Nat → TryBehavior) :
    ∀ (N : Nat) (l : List (String × String)) (ci : Nat),
    N < l.length →
    ((env (ci + N) 0).isconnected = true ∨ (env (ci + N) 1).isconnected = true) →
    (∀ j, j < N →
      (env (ci + j) 0).isconnected = false ∧ (env (ci + j) 1).isconnected = false) →
    connectFrom env ci l = (true, allFailTrace env ci N ++ successTrace env (ci + N)) := by
  intro N
  induction N with
  | zero =>
    intro l ci hlt hs _
    cases l with
    | nil => simp at hlt
    | cons c rest =>
      rw [Nat.add_zero] at hs
      simp [connectFrom, runCandidate_succ env ci hs, allFailTrace]
  | succ n ih =>
    intro l ci hlt hs hf
    cases l with
    | nil => simp at hlt
    | cons c rest =>
      have h0 := hf 0 (Nat.succ_pos n)
      rw [Nat.add_zero] at h0
      have hrc := runCandidate_fail env ci h0.1 h0.2
      have hrest := ih rest (ci + 1) (by simpa using hlt)
        (by simpa [Nat.add_assoc, Nat.add_comm 1 n] using hs)
        (fun j hj => by
          have := hf (j + 1) (Nat.succ_lt_succ hj)
          simpa [Nat.add_assoc, Nat.add_comm 1 j] using this)
      have hshift : ci + 1 + n = ci + (n + 1) := by omega
      rw [hshift] at hrest
      simp [connectFrom, hrc, hrest, allFailTrace]

theorem mem_bothAttempts (env : Nat → Nat → TryBehavior) (ci : Nat) (a : Attempt)
    (h : a ∈ bothAttempts env ci) :
    a.candidate = ci ∧ a.tryIdx < 2 ∧ a.polls ≤ 10 := by
  simp [bothAttempts, runTry] at h
  rcases h with h | h <;> subst h
  · exact ⟨rfl, by simp, waitLoop_le10 _⟩
  · exact ⟨rfl, by simp, waitLoop_le10 _⟩

theorem mem_allFailTrace (env : Nat → Nat → TryBehavior) :
    ∀ (n ci : Nat) (a : Attempt), a ∈ allFailTrace env ci n →
    ci ≤ a.candidate ∧ a.candidate < ci + n ∧ a.tryIdx < 2 ∧ a.polls ≤ 10 := by
  intro n
  induction n with
  | zero => intro ci a h; simp [allFailTrace] at h
  | succ m ih =>
    intro ci a h
    rw [allFailTrace] at h
    rcases List.mem_append.mp h with h | h
    · have := mem_bothAttempts env ci a h
      exact ⟨by omega, by omega, this.2.1, this.2.2⟩
    · have := ih (ci + 1) a h
      exact ⟨by omega, by omega, this.2.2.1, this.2.2.2⟩

theorem mem_successTrace (env : Nat → Nat → TryBehavior) (ci : Nat) (a : Attempt)
    (h : a ∈ successTrace env ci) :
    a.candidate = ci ∧ a.tryIdx < 2 ∧ a.polls ≤ 10 := by
  rw [successTrace] at h
  split at h
  · simp [runTry] at h
    subst h
    exact ⟨rfl, by simp, waitLoop_le10 _⟩
  · simp [runTry] at h
    rcases h with h | h <;> subst h
    · exact ⟨rfl, by simp, waitLoop_le10 _⟩
    · exact ⟨rfl, by simp, waitLoop_le10 _⟩

theorem triesFor_append (t1 t2 : List Attempt) (c : Nat) :
    triesFor (t1 ++ t2) c = triesFor t1 c + triesFor t2 c := by
  simp [triesFor, List.countP_append]

theorem triesFor_bothAttempts (env : Nat → Nat → TryBehavior) (ci c : Nat) :
    triesFor (bothAttempts env ci) c = if ci = c then 2 else 0 := by
  by_cases h : ci = c <;>
    simp [bothAttempts, triesFor, runTry, List.countP_cons, h]

theorem triesFor_allFailTrace (env : Nat → Nat → TryBehavior) :
    ∀ (n ci c : Nat),
    triesFor (allFailTrace env ci n) c = if ci ≤ c ∧ c < ci + n then 2 else 0 := by
  intro n
  induction n with
  | zero =>
    intro ci c
    rw [if_neg (by omega)]
    simp [allFailTrace, triesFor]
  | succ m ih =>
    intro ci c
    rw [allFailTrace, triesFor_append, triesFor_bothAttempts, ih (ci + 1) c]
    split_ifs <;> omega

theorem triesFor_successTrace (env : Nat → Nat → TryBehavior) (ci c : Nat) :
    triesFor (successTrace env ci) c ≤ if ci = c then 2 else 0 := by
  by_cases h : ci = c
  · rw [if_pos h]
    calc triesFor (successTrace env ci) c ≤ (successTrace env ci).length :=
          List.countP_le_length _
      _ ≤ 2 := by rw [successTrace]; split <;> simp
  · rw [if_neg h]
    rw [successTrace]
    split <;> simp [triesFor, runTry, List.countP_cons, h]

/-- C2: if every candidate before the Nth fails both of its tries and the
Nth succeeds on one of them, `connect_to_wifi` returns true with exactly
the trace of the failing prefix followed by the successful candidate's
tries: it never touches a candidate after the Nth, makes at most 2 tries
per candidate, and each try polls the connection status at most 10 times. -/
theorem claim_C2 (env : Nat → Nat → TryBehavior) (cands : List (String × String)) (N : Nat)
    (hN : N < cands.length)
    (hsucc : (env N 0).isconnected = true ∨ (env N 1).isconnected = true)
    (hfail : ∀ j, j < N →
      (env j 0).isconnected = false ∧ (env j 1).isconnected = false) :
    connect_to_wifi env cands = (true, allFailTrace env 0 N ++ successTrace env N) ∧
    (∀ a ∈ (connect_to_wifi env cands).2, a.candidate ≤ N) ∧
    (∀ c, triesFor (connect_to_wifi env cands).2 c ≤ 2) ∧
    (∀ a ∈ (connect_to_wifi env cands).2, a.polls ≤ 10) := by
  have key : connect_to_wifi env cands =
      (true, allFailTrace env 0 N ++ successTrace env N) := by
    have := connectFrom_succ_at env N cands 0 hN (by simpa using hsucc)
      (fun j hj => by simpa using hfail j hj)
    simpa [connect_to_wifi] using this
  refine ⟨key, ?_, ?_, ?_⟩
  · intro a ha
    rw [key] at ha
    rcases List.mem_append.mp ha with h | h
    · have := mem_allFailTrace env N 0 a h
      omega
    · have := mem_successTrace env N a h
      omega
  · intro c
    rw [key]
    simp only [triesFor_append]
    have h1 := triesFor_allFailTrace env N 0 c
    have h2 := triesFor_successTrace env N c
    rw [h1]
    split_ifs at * <;> omega
  · intro a ha
    rw [key] at ha
    rcases List.mem_append.mp ha with h | h
    · exact (mem_allFailTrace env N 0 a h).2.2.2
    · exact (mem_successTrace env N a h).2.2

/-- C8: for an empty candidate list, and more generally whenever every try
of every candidate fails, `connect_to_wifi` returns false, having tried
every candidate exactly twice with at most 10 status polls per try. -/
theorem claim_C8 (env : Nat → Nat → TryBehavior) (cands : List (String × String))
    (hfail : ∀ j, j < cands.length →
      (env j 0).isconnected = false ∧ (env j 1).isconnected = false) :
    (connect_to_wifi env cands).1 = false ∧
    (connect_to_wifi env cands).2 = allFailTrace env 0 cands.length ∧
    (∀ j, j < cands.length → triesFor (connect_to_wifi env cands).2 j = 2) ∧
    (∀ a ∈ (connect_to_wifi env cands).2, a.polls ≤ 10) := by
  have key : connect_to_wifi env cands = (false, allFailTrace env 0 cands.length) := by
    have := connectFrom_all_fail env cands 0 (fun j hj => by simpa using hfail j hj)
    simpa [connect_to_wifi] using this
  refine ⟨by rw [key], by rw [key], ?_, ?_⟩
  · intro j hj
    rw [key]
    have := triesFor_allFailTrace env cands.length 0 j
    simpa [hj] using this
  · intro a ha
    rw [key] at ha
    exact (mem_allFailTrace env cands.length 0 a ha).2.2.2

/-- A demonstration wlan behavior: candidate 0 fails both tries with a
negative (failed-link) status, candidate 1 connects. -/
def wifiEnvDemo : Nat → Nat → TryBehavior :=
  fun ci _ => if ci = 1 then ⟨fun _ => 1, true⟩ else ⟨fun _ => -1, false⟩

/-- A demonstration wlan behavior in which every try of every candidate
fails immediately with a failed-link status. -/
def wifiEnvFailDemo : Nat → Nat → TryBehavior :=
  fun _ _ => ⟨fun _ => -1, false⟩

theorem claim_C2_witness :
    1 < wifiNetworks.length ∧
    ((wifiEnvDemo 1 0).isconnected = true ∨ (wifiEnvDemo 1 1).isconnected = true) ∧
    (∀ j, j < 1 →
      (wifiEnvDemo j 0).isconnected = false ∧ (wifiEnvDemo j 1).isconnected = false) ∧
    (connect_to_wifi wifiEnvDemo wifiNetworks =
        (true, allFailTrace wifiEnvDemo 0 1 ++ successTrace wifiEnvDemo 1) ∧
      (∀ a ∈ (connect_to_wifi wifiEnvDemo wifiNetworks).2, a.candidate ≤ 1) ∧
      (∀ c, triesFor (connect_to_wifi wifiEnvDemo wifiNetworks).2 c ≤ 2) ∧
      (∀ a ∈ (connect_to_wifi wifiEnvDemo wifiNetworks).2, a.polls ≤ 10)) :=
  ⟨by decide, by decide, by decide,
    claim_C2 wifiEnvDemo wifiNetworks 1 (by decide) (by decide) (by decide)⟩

theorem claim_C8_witness :
    (∀ j, j < wifiNetworks.length →
      (wifiEnvFailDemo j 0).isconnected = false ∧
        (wifiEnvFailDemo j 1).isconnected = false) ∧
    ((connect_to_wifi wifiEnvFailDemo wifiNetworks).1 = false ∧
      (connect_to_wifi wifiEnvFailDemo wifiNetworks).2 =
        allFailTrace wifiEnvFailDemo 0 wifiNetworks.length ∧
      (∀ j, j < wifiNetworks.length →
        triesFor (connect_to_wifi wifiEnvFailDemo wifiNetworks).2 j = 2) ∧
      (∀ a ∈ (connect_to_wifi wifiEnvFailDemo wifiNetworks).2, a.polls ≤ 10)) :=
  ⟨by decide, claim_C8 wifiEnvFailDemo wifiNetworks (by decide)⟩

/-- Outcome of the `conn.recv(1024)` inside the inner try (main.py lines
270-275): either a request was read, or the read raised (timeout or
anything else) and the bare `except` swallowed it. -/
inductive RecvOutcome where
  | got (request : String)
  | failed
deriving DecidableEq, Repr

/-- The point of the serve sequence at which an injected exception is
raised: at `conn.send` of the header, at `conn.sendall` of the body, or at
`conn.close()` (main.py lines 282-286). -/
inductive ServePoint where
  | atHeader
  | atBody
  | atClose
deriving DecidableEq, Repr

/-- What happens while one accepted connection is served: the fault-free
path, or an exception of a given class raised at a given point. -/
inductive ServeFault where
  | ok (ro : RecvOutcome)
  | osErr (p : ServePoint) (ro : RecvOutcome) (errno : Int)
  | exc (p : ServePoint) (ro : RecvOutcome)
  | interrupt (p : ServePoint) (ro : RecvOutcome)
deriving DecidableEq, Repr

/-- What the outside world does in one iteration of the service loop
(main.py lines 263-307): a connection is accepted and served subject to a
`ServeFault`, or `server.accept()` itself raises an `OSError` with the
given errno (110 is the 30-second idle timeout), or a `KeyboardInterrupt`
arrives while waiting in `accept`. -/
inductive IterEvent where
  | accept (f : ServeFault)
  | acceptOSError (errno : Int)
  | acceptInterrupt
deriving DecidableEq, Repr

/-- Observable effects of the loop, in program order: socket operations,
display refreshes, log prints, and the shutdown steps. -/
inductive Action where
  | accepted
  | recvAttempt (ro : RecvOutcome)
  | sendHeader (s : String)
  | sendBody (s : String)
  | closeConn
  | displayRefresh
  | logMsg (s : String)
  | closeServer
  | wifiDisconnect
  | wifiOff
deriving DecidableEq, Repr

/-- The exact status line and headers sent on every connection
(main.py line 282). -/
def httpHeader : String := "HTTP/1.1 200 OK\r\nContent-type: text/html\r\n\r\n"

/-- `display_weatherData` (main.py lines 236-241): calls
`refresh_weatherData` and redraws the three value cells; its effect on the
Reading Set is exactly the refresh. -/
def display_weatherData (sr : SensorResult) : ReadingSet :=
  refresh_weatherData sr

/-- The serve sequence for one accepted connection (main.py lines 266-286),
cut short at the point where an exception is raised (`none` = no
exception): accept, attempt the request read (read failure swallowed),
send the status line and headers, send the page built from the current
Reading Set, close the connection. -/
def serveSteps (r : ReadingSet) (ro : RecvOutcome) : Option ServePoint → List Action
  | none => [.accepted, .recvAttempt ro, .sendHeader httpHeader,
      .sendBody (web_page r), .closeConn]
  | some .atHeader => [.accepted, .recvAttempt ro]
  | some .atBody => [.accepted, .recvAttempt ro, .sendHeader httpHeader]
  | some .atClose => [.accepted, .recvAttempt ro, .sendHeader httpHeader,
      .sendBody (web_page r)]

/-- Result of one iteration of the service loop: the actions performed, the
Reading Set afterwards, and the value of `stay_in_loop`. -/
structure IterResult where
  trace : List Action
  readings : ReadingSet
  stayInLoop : Bool
deriving Repr

/-- One iteration of the `while stay_in_loop` loop (main.py lines 263-307),
with the exception handlers exactly as written: an `OSError` with
`e.errno == 110` triggers `display_weatherData()` (wherever it was
raised); any other `OSError` is printed; any other `Exception` is printed
and the connection closed; a `KeyboardInterrupt` prints two messages —
including `connection closed` — but closes nothing, and clears
`stay_in_loop`.  `sr` is the sensor outcome used if a display refresh
happens in this iteration. -/
def loopIter (r : ReadingSet) (sr : SensorResult) : IterEvent → IterResult
  | .accept (.ok ro) => ⟨serveSteps r ro none, r, true⟩
  | .accept (.osErr p ro errno) =>
    if errno = 110 then
      ⟨serveSteps r ro (some p) ++ [.displayRefresh], display_weatherData sr, true⟩
    else
      ⟨serveSteps r ro (some p) ++ [.logMsg "OSError"], r, true⟩
  | .accept (.exc p ro) =>
    ⟨serveSteps r ro (some p) ++
      [.logMsg "Exception", .closeConn, .logMsg "connection closed"], r, true⟩
  | .accept (.interrupt p ro) =>
    ⟨serveSteps r ro (some p) ++
      [.logMsg "KeyboardInterrupt", .logMsg "connection closed"], r, false⟩
  | .acceptOSError errno =>
    if errno = 110 then ⟨[.displayRefresh], display_weatherData sr, true⟩
    else ⟨[.logMsg "OSError"], r, true⟩
  | .acceptInterrupt =>
    ⟨[.logMsg "KeyboardInterrupt", .logMsg "connection closed"], r, false⟩

/-- The service loop run over a list of iteration events (each with the
sensor outcome a refresh in that iteration would see).  Returns the final
Reading Set, the concatenated trace, and whether the loop is still alive
(`true` when the events ran out with `stay_in_loop` still set). -/
def runLoop (r : ReadingSet) : List (SensorResult × IterEvent) → ReadingSet × List Action × Bool
  | [] => (r, [], true)
  | (sr, e) :: rest =>
    let it := loopIter r sr e
    if it.stayInLoop then
      let next := runLoop it.readings rest
      (next.1, it.trace ++ next.2.1, next.2.2)
    else (it.readings, it.trace, false)

/-- The cleanup after the loop exits (main.py lines 309-317):
`server.close()`, then `wlan.disconnect()`, then `wlan.active(False)`. -/
def shutdownSteps : List Action := [.closeServer, .wifiDisconnect, .wifiOff]

/-- `run_display_and_webserver` (main.py lines 244-317): an initial
`display_weatherData()`, then the service loop; the shutdown steps run
exactly when the loop exited (which only a `KeyboardInterrupt` causes). -/
def run_display_and_webserver (sr0 : SensorResult)
    (events : List (SensorResult × IterEvent)) : ReadingSet × List Action × Bool :=
  let r1 := display_weatherData sr0
  let res := runLoop r1 events
  if res.2.2 then (res.1, Action.displayRefresh :: res.2.1, true)
  else (res.1, Action.displayRefresh :: (res.2.1 ++ shutdownSteps), false)

/-- Events that the source handles as an error while serving a connection,
other than the expected idle-timeout `OSError` with errno 110: any other
`OSError`, or any other `Exception`, raised after the accept. -/
def isServeError : IterEvent → Bool
  | .accept (.osErr _ _ errno) => errno != 110
  | .accept (.exc _ _) => true
  | _ => false

/-- Events carrying the external `KeyboardInterrupt`. -/
def isInterruptEvent : IterEvent → Bool
  | .accept (.interrupt _ _) => true
  | .acceptInterrupt => true
  | _ => false

/-- Serve faults on which the handler performs a display refresh (and hence
a sensor re-read): exactly an `OSError` with errno 110. -/
def serveRefreshes : ServeFault → Bool
  | .osErr _ _ errno => errno == 110
  | _ => false

theorem loopIter_stay_of_not_interrupt (r : ReadingSet) (sr : SensorResult)
    (e : IterEvent) (h : isInterruptEvent e = false) :
    (loopIter r sr e).stayInLoop = true := by
  cases e with
  | accept f =>
    cases f with
    | ok ro => rfl
    | osErr p ro errno =>
      by_cases h110 : errno = (110 : Int) <;> simp [loopIter, h110]
    | exc p ro => rfl
    | interrupt p ro => simp [isInterruptEvent] at h
  | acceptOSError errno =>
    by_cases h110 : errno = (110 : Int) <;> simp [loopIter, h110]
  | acceptInterrupt => simp [isInterruptEvent] at h

theorem runLoop_alive (r : ReadingSet) (events : List (SensorResult × IterEvent))
    (h : ∀ p ∈ events, isInterruptEvent (Prod.snd p) = false) :
    (runLoop r events).2.2 = true := by
  induction events generalizing r with
  | nil => rfl
  | cons pe rest ih =>
    obtain ⟨sr, e⟩ := pe
    have he := h _ (List.mem_cons_self _ _)
    have hs := loopIter_stay_of_not_interrupt r sr e he
    simp only [runLoop, hs, if_true]
    exact ih _ (fun p hp => h p (List.mem_cons_of_mem _ hp))

/-- C5: any error raised while a connection is being served, other than the
idle-timeout `OSError(110)`, is caught by the handlers, logged, and the
loop keeps running; and a loop fed any events free of the external
interrupt — bad clients included — never terminates. -/
theorem claim_C5 :
    (∀ (r : ReadingSet) (sr : SensorResult) (e : IterEvent), isServeError e = true →
      (loopIter r sr e).stayInLoop = true ∧
        ∃ m, Action.logMsg m ∈ (loopIter r sr e).trace) ∧
    (∀ (r : ReadingSet) (events : List (SensorResult × IterEvent)),
      (∀ p ∈ events, isInterruptEvent (Prod.snd p) = false) →
      (runLoop r events).2.2 = true) := by
  constructor
  · intro r sr e he
    cases e with
    | accept f =>
      cases f with
      | ok ro => simp [isServeError] at he
      | osErr p ro errno =>
        have h110 : ¬(errno = (110 : Int)) := by
          simpa [isServeError] using he
        refine ⟨by simp [loopIter, h110], "OSError", ?_⟩
        simp [loopIter, h110]
      | exc p ro =>
        refine ⟨rfl, "Exception", ?_⟩
        simp [loopIter]
      | interrupt p ro => simp [isServeError] at he
    | acceptOSError errno => simp [isServeError] at he
    | acceptInterrupt => simp [isServeError] at he
  · exact runLoop_alive

/-- An error while serving, for demonstration: an `Exception` raised while
sending the page body. -/
def demoServeError : IterEvent :=
  IterEvent.accept (ServeFault.exc ServePoint.atBody (RecvOutcome.got "GET / HTTP/1.1"))

/-- A short interrupt-free event run for demonstration: one bad client,
then an idle timeout. -/
def demoEvents : List (SensorResult × IterEvent) :=
  [(SensorResult.fail, demoServeError),
   (SensorResult.ok "21.4C" "998.1hPa" "35.2%", IterEvent.acceptOSError 110)]

theorem claim_C5_witness :
    (isServeError demoServeError = true ∧
      ((loopIter initialReadings SensorResult.fail demoServeError).stayInLoop = true ∧
        ∃ m, Action.logMsg m ∈
          (loopIter initialReadings SensorResult.fail demoServeError).trace)) ∧
    ((∀ p ∈ demoEvents, isInterruptEvent (Prod.snd p) = false) ∧
      (runLoop initialReadings demoEvents).2.2 = true) :=
  ⟨⟨by decide, claim_C5.1 initialReadings SensorResult.fail demoServeError (by decide)⟩,
   ⟨by decide, claim_C5.2 initialReadings demoEvents (by decide)⟩⟩

/-- C6: every accepted connection, whatever the request read produced (the
request is ignored), is answered with the `HTTP/1.1 200 OK` status line and
`Content-type: text/html` headers followed by the rendered page, and the
loop continues; the page carries the 60-second meta-refresh tag and the
three labelled rows with the Reading Set values substituted verbatim. -/
theorem claim_C6 (r : ReadingSet) (sr : SensorResult) (ro : RecvOutcome) :
    (loopIter r sr (IterEvent.accept (ServeFault.ok ro))).trace =
      [Action.accepted, Action.recvAttempt ro, Action.sendHeader httpHeader,
        Action.sendBody (web_page r), Action.closeConn] ∧
    (loopIter r sr (IterEvent.accept (ServeFault.ok ro))).stayInLoop = true ∧
    httpHeader = "HTTP/1.1 200 OK\r\nContent-type: text/html\r\n\r\n" ∧
    (∃ x y, web_page r = x ++ (metaRefresh60 ++ y)) ∧
    (∃ s1 s2 s3 s4 s5 s6 s7, web_page r =
      s1 ++ ("Temperature" ++ (s2 ++ (sensorCell r.temperature ++
        (s3 ++ ("Pressure" ++ (s4 ++ (sensorCell r.pressure ++
          (s5 ++ ("Humidity" ++ (s6 ++ (sensorCell r.humidity ++ s7)))))))))))) := by
  refine ⟨rfl, rfl, rfl, ?_, ?_⟩
  · refine ⟨htmlPreA,
      htmlPreB ++ "Temperature" ++ htmlPreC ++ sensorCell r.temperature ++
        htmlMid1b ++ "Pressure" ++ htmlMid1c ++ sensorCell r.pressure ++
        htmlMid2b ++ "Humidity" ++ htmlMid2c ++ sensorCell r.humidity ++ htmlPostB, ?_⟩
    rw [web_page_parts]
    simp [String.append_assoc]
  · refine ⟨htmlPreA ++ metaRefresh60 ++ htmlPreB, htmlPreC, htmlMid1b,
      htmlMid1c, htmlMid2b, htmlMid2c, htmlPostB, ?_⟩
    rw [web_page_parts]
    simp [String.append_assoc]

/-- C7: when the 30-second idle timeout fires with no connection pending
(an `OSError` with errno 110 from `accept`), the iteration performs exactly
a display refresh — which re-reads the sensor — and the loop returns to
waiting; the listening socket is not closed. -/
theorem claim_C7 (r : ReadingSet) (sr : SensorResult) :
    (loopIter r sr (IterEvent.acceptOSError 110)).trace = [Action.displayRefresh] ∧
    (loopIter r sr (IterEvent.acceptOSError 110)).readings = refresh_weatherData sr ∧
    (loopIter r sr (IterEvent.acceptOSError 110)).stayInLoop = true ∧
    Action.closeServer ∉ (loopIter r sr (IterEvent.acceptOSError 110)).trace := by
  refine ⟨rfl, rfl, rfl, ?_⟩
  simp [loopIter]

/-- C9: when the request read fails or times out on an accepted connection,
the inner bare `except` swallows it and the server still proceeds: it sends
the status line and headers, sends the page, and closes the connection. -/
theorem claim_C9 (r : ReadingSet) (sr : SensorResult) :
    (loopIter r sr (IterEvent.accept (ServeFault.ok RecvOutcome.failed))).trace =
      [Action.accepted, Action.recvAttempt RecvOutcome.failed,
        Action.sendHeader httpHeader, Action.sendBody (web_page r), Action.closeConn] ∧
    (loopIter r sr (IterEvent.accept (ServeFault.ok RecvOutcome.failed))).stayInLoop = true := by
  exact ⟨rfl, rfl⟩

/-- A run in which a `KeyboardInterrupt` arrives while a connection is
being served (after the header was sent). -/
def interruptWhileServing : List (SensorResult × IterEvent) :=
  [(SensorResult.fail,
    IterEvent.accept (ServeFault.interrupt ServePoint.atBody (RecvOutcome.got "GET / HTTP/1.1")))]

/-- C3: what the code actually does when the interrupt arrives while
serving: the handler prints `KeyboardInterrupt` and `connection closed`
without ever closing the current connection — `closeConn` appears nowhere —
and then the listening socket is closed, the network disconnected, and the
radio powered down, in that order.  The claimed first step (closing the
current connection) never happens, although the handler's own log message
says it did. -/
theorem claim_C3 :
    (run_display_and_webserver (SensorResult.ok "21.4C" "998.1hPa" "35.2%")
        interruptWhileServing).2.1 =
      [Action.displayRefresh, Action.accepted,
        Action.recvAttempt (RecvOutcome.got "GET / HTTP/1.1"),
        Action.sendHeader httpHeader,
        Action.logMsg "KeyboardInterrupt", Action.logMsg "connection closed",
        Action.closeServer, Action.wifiDisconnect, Action.wifiOff] ∧
    Action.closeConn ∉
      (run_display_and_webserver (SensorResult.ok "21.4C" "998.1hPa" "35.2%")
        interruptWhileServing).2.1 := by
  constructor
  · rfl
  · decide

/-- C4 fails at the start of the program: before the first refresh the
three globals hold empty strings, not the "n/a" sentinel. -/
theorem claim_C4_counterexample :
    ¬(initialReadings.temperature = "n/a" ∧ initialReadings.pressure = "n/a" ∧
      initialReadings.humidity = "n/a") := by
  decide

/-- C4 (amended): the Reading Set always holds exactly three values; they
are initialized to empty strings — the sentinel appears only after the
first failed refresh — and a refresh never leaves the set partially
populated: afterwards either all three fields are the fresh sensor values
or all three are the sentinel. -/
theorem claim_C4_amended :
    initialReadings = ⟨"", "", ""⟩ ∧
    ∀ sr : SensorResult,
      (∃ t p h, sr = SensorResult.ok t p h ∧ refresh_weatherData sr = ⟨t, p, h⟩) ∨
      refresh_weatherData sr = ⟨"n/a", "n/a", "n/a"⟩ := by
  refine ⟨rfl, ?_⟩
  intro sr
  cases sr with
  | ok t p h => exact Or.inl ⟨t, p, h, rfl, rfl⟩
  | fail => exact Or.inr rfl

/-- C10 fails on the code: an `OSError` with errno 110 raised while serving
an accepted connection (a send timing out, say) lands in the idle-timeout
branch of the handler, which re-reads the sensor and mutates the Reading
Set inside a serving iteration. -/
theorem claim_C10_counterexample :
    (loopIter initialReadings (SensorResult.ok "21.4C" "998.1hPa" "35.2%")
      (IterEvent.accept (ServeFault.osErr ServePoint.atBody
        (RecvOutcome.got "GET / HTTP/1.1") 110))).readings ≠ initialReadings := by
  decide

/-- C10 (amended): serving an accepted connection leaves the Reading Set
unchanged — and the page sent is the one built from the values of the most
recent refresh — except when serving raises an `OSError` with errno 110,
which the handler cannot tell apart from the idle timeout and answers with
a display refresh, re-reading the sensor inside the serving iteration. -/
theorem claim_C10_amended (r : ReadingSet) (sr : SensorResult) (f : ServeFault)
    (h : serveRefreshes f = false) :
    (loopIter r sr (IterEvent.accept f)).readings = r ∧
    ∀ ro, Action.sendBody (web_page r) ∈
      (loopIter r sr (IterEvent.accept (ServeFault.ok ro))).trace := by
  constructor
  · cases f with
    | ok ro => rfl
    | osErr p ro errno =>
      have h110 : ¬(errno = (110 : Int)) := by
        simpa [serveRefreshes] using h
      simp [loopIter, h110]
    | exc p ro => rfl
    | interrupt p ro => rfl
  · intro ro
    simp [loopIter, serveSteps]

theorem claim_C10_witness :
    serveRefreshes (ServeFault.exc ServePoint.atHeader RecvOutcome.failed) = false ∧
    ((loopIter initialReadings SensorResult.fail
        (IterEvent.accept (ServeFault.exc ServePoint.atHeader RecvOutcome.failed))).readings =
      initialReadings ∧
      ∀ ro, Action.sendBody (web_page initialReadings) ∈
        (loopIter initialReadings SensorResult.fail
          (IterEvent.accept (ServeFault.ok ro))).trace) :=
  ⟨by decide,
    claim_C10_amended initialReadings SensorResult.fail
      (ServeFault.exc ServePoint.atHeader RecvOutcome.failed) (by decide)⟩

end WeatherStation
